import Mathlib

/-!
Verification of the untrusted-file admission pipeline and transcoding engine
of the image-compression-tools repository.

The development shallowly embeds the three relevant source files:

* `src/lib/security.ts` (`FileSecurityValidator`): size, name, signature and
  content gates over an uploaded file.
* `src/lib/client-scanner.ts` (`ClientFileScanner`): heuristic threat scan
  producing a `ScanResult`.
* `src/components/image-optimizer.tsx`: dimension clamping, output-format
  selection, PDF page transcoding, the admission pipeline control flow and
  the suitable-services lookup.

Machine integers of the source are modelled as `Nat` (byte values, sizes) and
exact rationals `ℚ` (JavaScript numbers on the arithmetic actually performed:
all quantities involved stay well inside the range where float and rational
arithmetic agree for the properties proved here).  A DOM `File` is modelled as
`MFile`; its `size` is the length of its content bytes, as in the File API.

External runtime primitives that are not code of this repository are
parameters of the model:

* the browser image decoder used by `validateImageContent` (an
  `DecodeOracle`, returning dimensions, failure, or timeout);
* the regex engine / text decoder / float entropy of `scanFileContent`
  (a `ContentOracle` returning the three findings the code branches on);
* the canvas encoder/decoder pair for the PNG round-trip property.

The control flow around these oracles is embedded exactly.
-/

/-! ### Byte and string helpers -/

/-- One step of `matchesSignature`: compare a byte list against a signature
prefix, mirroring the index loop of `FileSecurityValidator.matchesSignature`. -/
def sigMatchAux : List Nat → List Nat → Bool
  | _, [] => true
  | [], _ :: _ => false
  | b :: bs, s :: ss => b == s && sigMatchAux bs ss

/-- `FileSecurityValidator.matchesSignature`: a byte array matches a signature
iff it is long enough and agrees on every signature index. -/
def matchesSignature (bytes signature : List Nat) : Bool :=
  if bytes.length < signature.length then false else sigMatchAux bytes signature

/-- Does `pat` occur in `hay` starting at offset `i` (all `pat` positions
agree)?  Used for the `%%EOF` / `:$DATA` byte searches. -/
def seqMatchAt (hay : List Nat) (i : Nat) (pat : List Nat) : Bool :=
  (List.range pat.length).all fun j => hay.get? (i + j) == pat.get? j

/-- `String.prototype.includes` on raw ASCII byte sequences: `pat` occurs
contiguously somewhere in `hay`. -/
def containsSeq (hay pat : List Nat) : Bool :=
  (List.range (hay.length + 1)).any fun i =>
    decide (pat.length + i ≤ hay.length) && seqMatchAt hay i pat

/-- `bytes.slice(-n)`: the last `n` entries (the whole list when shorter). -/
def lastBytes (n : Nat) (l : List Nat) : List Nat := l.drop (l.length - n)

/-- Characters rejected by the validator's dangerous-character class
`[<>:"/\\|?*\x00-\x1f]`. -/
def isDangerousChar (c : Char) : Bool :=
  c == '<' || c == '>' || c == ':' || c == '\"' || c == '/' || c == '\\' ||
  c == '|' || c == '?' || c == '*' || decide (c.toNat ≤ 0x1f)

/-- The dangerous-character regex test over a file name. -/
def hasDangerousChar (name : String) : Bool := name.data.any isDangerousChar

/-- ASCII lower-casing, as applied by the case-insensitive `/i` regex flag to
the ASCII extension alternatives. -/
def asciiLower (c : Char) : Char :=
  if 'A' ≤ c && c ≤ 'Z' then Char.ofNat (c.toNat + 32) else c

/-- Does the character list end with the given terminal segment? -/
def endsWithList (l sfx : List Char) : Bool := l.drop (l.length - sfx.length) == sfx

/-- The executable-extension regex `\.(…)$/i`: the lower-cased name ends in a
dot followed by one of the listed extensions. -/
def matchesExecExt (exts : List String) (name : String) : Bool :=
  exts.any fun e => endsWithList (name.data.map asciiLower) ('.' :: e.data)

/-- JavaScript `String.prototype.length` (UTF-16 code units). -/
def utf16Len (s : String) : Nat :=
  s.data.foldl (fun n c => n + (if 0x10000 ≤ c.toNat then 2 else 1)) 0

/-- `String.prototype.startsWith`. -/
def strStartsWith (s p : String) : Bool := s.data.take p.data.length == p.data

/-! ### Data model: the input file and the external decode oracle -/

/-- A DOM `File` as the validator and scanner see it: a name, the
caller-declared MIME type (`file.type`), and the content bytes.  `file.size`
is by the File API the byte length of the content. -/
structure MFile where
  name : String
  declaredType : String
  bytes : List Nat
deriving DecidableEq

/-- `file.size`. -/
def MFile.size (f : MFile) : Nat := f.bytes.length

/-- Outcome of the browser `Image` decode probe in `validateImageContent`:
the decoded dimensions, a decode error (`onerror`), or the 5-second timeout. -/
inductive DecodeOutcome where
  | ok (width height : Nat)
  | failed
  | timedOut
deriving DecidableEq

/-- The browser image decoder, external to the repository: a function from the
file bytes to a decode outcome. -/
def DecodeOracle : Type := List Nat → DecodeOutcome

/-! ### `FileSecurityValidator` (src/lib/security.ts) -/

/-- The result shape `{valid, error?, fileType?}` returned by the validator. -/
structure ValidationResult where
  valid : Bool
  error : Option String
  fileType : Option String
deriving DecidableEq

/-- `ALLOWED_FILE_SIGNATURES`, in source order: magic-number prefix paired
with the accepted MIME type. -/
def ALLOWED_FILE_SIGNATURES : List (List Nat × String) :=
  [([0xFF, 0xD8, 0xFF], "image/jpeg"),
   ([0x89, 0x50, 0x4E, 0x47, 0x0D, 0x0A, 0x1A, 0x0A], "image/png"),
   ([0x47, 0x49, 0x46, 0x38], "image/gif"),
   ([0x52, 0x49, 0x46, 0x46], "image/webp"),
   ([0x25, 0x50, 0x44, 0x46], "application/pdf")]

/-- `MAX_FILE_SIZE = 50 * 1024 * 1024`. -/
def MAX_FILE_SIZE : Nat := 50 * 1024 * 1024

/-- `MIN_FILE_SIZE = 100`. -/
def MIN_FILE_SIZE : Nat := 100

/-- `validateFileSize`: reject above 50 MiB or below 100 B. -/
def validateFileSize (f : MFile) : ValidationResult :=
  if MAX_FILE_SIZE < f.size then
    ⟨false, some "ファイルサイズが大きすぎます（最大: 50MB）", none⟩
  else if f.size < MIN_FILE_SIZE then
    ⟨false, some "ファイルサイズが小さすぎます", none⟩
  else ⟨true, none, none⟩

/-- The validator's executable-extension denylist. -/
def validatorExecutableExts : List String :=
  ["exe", "bat", "cmd", "com", "pif", "scr", "vbs", "js", "jar", "app", "deb", "pkg", "dmg"]

/-- `validateFileName`: dangerous characters, then executable extensions, then
the 255-length bound — first failure wins. -/
def validateFileName (fileName : String) : ValidationResult :=
  if hasDangerousChar fileName then
    ⟨false, some "ファイル名に不正な文字が含まれています", none⟩
  else if matchesExecExt validatorExecutableExts fileName then
    ⟨false, some "実行可能ファイルはアップロードできません", none⟩
  else if 255 < utf16Len fileName then
    ⟨false, some "ファイル名が長すぎます", none⟩
  else ⟨true, none, none⟩

/-- First signature of the catalog matching the leading bytes, in table
order.  The declared MIME type is not consulted (the source only emits a
`console.warn` on mismatch, which does not affect the result). -/
def firstSignatureMatch : List (List Nat × String) → List Nat → Option String
  | [], _ => none
  | (sig, mime) :: rest, bytes =>
      if matchesSignature bytes sig then some mime else firstSignatureMatch rest bytes

/-- `validateFileSignature`: read the first 16 bytes, resolve the media type
from the first matching catalog entry, otherwise reject as unsupported. -/
def validateFileSignature (f : MFile) : ValidationResult :=
  match firstSignatureMatch ALLOWED_FILE_SIGNATURES (f.bytes.take 16) with
  | some mime => ⟨true, none, some mime⟩
  | none => ⟨false, some "サポートされていないファイル形式です", none⟩

/-- `validateImageContent`: the decode probe (5 s timeout, decode error, or a
dimension above 10000 px rejects). -/
def validateImageContent (d : DecodeOracle) (f : MFile) : ValidationResult :=
  match d f.bytes with
  | DecodeOutcome.timedOut => ⟨false, some "画像ファイルの読み込みがタイムアウトしました", none⟩
  | DecodeOutcome.failed => ⟨false, some "破損した画像ファイルです", none⟩
  | DecodeOutcome.ok w h =>
      if 10000 < w ∨ 10000 < h then ⟨false, some "画像のサイズが大きすぎます", none⟩
      else ⟨true, none, none⟩

/-- The `%%EOF` marker bytes. -/
def pdfEOFMarker : List Nat := [0x25, 0x25, 0x45, 0x4F, 0x46]

/-- `validatePDFContent`: the last 20 bytes must contain `%%EOF`. -/
def validatePDFContent (f : MFile) : ValidationResult :=
  if containsSeq (lastBytes 20 f.bytes) pdfEOFMarker then ⟨true, none, none⟩
  else ⟨false, some "不正なPDFファイルです", none⟩

/-- `validateFileContent`: the probe is selected by the caller-declared MIME
type `file.type` — image probe for `image/*`, PDF probe for
`application/pdf`, and no probe otherwise. -/
def validateFileContent (d : DecodeOracle) (f : MFile) : ValidationResult :=
  if strStartsWith f.declaredType "image/" then validateImageContent d f
  else if f.declaredType = "application/pdf" then validatePDFContent f
  else ⟨true, none, none⟩

/-- `FileSecurityValidator.validateFile`: size, name, signature, content —
each a hard gate, first failure returned; on success the resolved type is the
signature match. -/
def validateFile (d : DecodeOracle) (f : MFile) : ValidationResult :=
  let sizeValidation := validateFileSize f
  if sizeValidation.valid = false then sizeValidation
  else
    let nameValidation := validateFileName f.name
    if nameValidation.valid = false then nameValidation
    else
      let signatureValidation := validateFileSignature f
      if signatureValidation.valid = false then signatureValidation
      else
        let contentValidation := validateFileContent d f
        if contentValidation.valid = false then contentValidation
        else ⟨true, none, signatureValidation.fileType⟩

/-! ### `ClientFileScanner` (src/lib/client-scanner.ts) -/

/-- `ScanResult`: `{safe, threats, warnings}` with push-append semantics. -/
structure ScanResult where
  safe : Bool
  threats : List String
  warnings : List String
deriving DecidableEq

/-- `result.safe = false; result.threats.push(msg)`. -/
def recordThreat (msg : String) (r : ScanResult) : ScanResult :=
  { r with safe := false, threats := r.threats ++ [msg] }

/-- `result.warnings.push(msg)`. -/
def recordWarning (msg : String) (r : ScanResult) : ScanResult :=
  { r with warnings := r.warnings ++ [msg] }

/-- The scanner's executable-extension regex alternatives (the validator's
list plus `msi`). -/
def scannerExecutableExts : List String :=
  ["exe", "bat", "cmd", "com", "pif", "scr", "vbs", "js", "jar", "app", "deb", "pkg", "dmg", "msi"]

/-- ASCII letter, the `[a-zA-Z]` class of the double-extension regex. -/
def isAsciiAlpha (c : Char) : Bool :=
  ('a' ≤ c && c ≤ 'z') || ('A' ≤ c && c ≤ 'Z')

/-- One candidate decomposition for `\.[a-zA-Z]{2,4}\.[a-zA-Z]{2,4}$` on the
reversed character list: the final `m` characters are letters, preceded by a
dot, preceded by `k` letters, preceded by a dot. -/
def doubleExtAt (r : List Char) (m k : Nat) : Bool :=
  decide (m + k + 2 ≤ r.length) && ((r.take m).all isAsciiAlpha) &&
  (r.get? m == some '.') && (((r.drop (m + 1)).take k).all isAsciiAlpha) &&
  ((r.drop (m + 1)).get? k == some '.')

/-- The double-extension regex test: some choice of group lengths in `2..4`
matches at the end of the name. -/
def doubleExtCheck (name : String) : Bool :=
  [2, 3, 4].any fun m => [2, 3, 4].any fun k => doubleExtAt name.data.reverse m k

/-- The bidirectional/format Unicode control characters
`[‎‏‪-‮]`. -/
def isBidiControl (c : Char) : Bool :=
  c.toNat == 0x200E || c.toNat == 0x200F ||
  (decide (0x202A ≤ c.toNat) && decide (c.toNat ≤ 0x202E))

/-- Does the name contain a bidi/format control character? -/
def hasBidiControl (s : String) : Bool := s.data.any isBidiControl

/-- `ClientFileScanner.scanFileName`, threading the mutable `result`. -/
def scanFileName (fileName : String) (r : ScanResult) : ScanResult :=
  let r1 := if matchesExecExt scannerExecutableExts fileName then
              recordThreat "実行可能ファイル拡張子が検出されました" r else r
  let r2 := if doubleExtCheck fileName then
              recordWarning "二重拡張子が検出されました" r1 else r1
  let r3 := if 255 < utf16Len fileName then
              recordWarning "ファイル名が異常に長すぎます" r2 else r2
  if hasBidiControl fileName then
    recordThreat "Unicode制御文字が検出されました" r3 else r3

/-- The outcomes of the text-level heuristics of `scanFileContent` on the
decoded window: whether some `DANGEROUS_PATTERNS` regex matches, how many
`SUSPICIOUS_STRINGS` occur case-insensitively, and whether the Shannon
entropy of the first 1000 characters exceeds 7.5.  The regex engine, the
lenient UTF-8 text decoder and float `Math.log2` are browser primitives, so
these three findings are supplied by an oracle over the scanned window; the
branching the code performs on them is embedded exactly below. -/
structure ContentFindings where
  dangerousPatternFound : Bool
  suspiciousCount : Nat
  highEntropy : Bool

/-- The text-finding oracle over the scanned byte window. -/
def ContentOracle : Type := List Nat → ContentFindings

/-- `ClientFileScanner.scanFileContent`: a dangerous pattern is a threat
(the pattern loop breaks after the first match, recording one entry), more
than 2 suspicious strings and high entropy are warnings. -/
def scanFileContent (cf : ContentFindings) (r : ScanResult) : ScanResult :=
  let r1 := if cf.dangerousPatternFound then
              recordThreat "危険なコードパターンが検出されました" r else r
  let r2 := if 2 < cf.suspiciousCount then
              recordWarning "疑わしいコマンドが複数検出されました" r1 else r1
  if cf.highEntropy then
    recordWarning "高エントロピーコンテンツが検出されました（暗号化・難読化の可能性）" r2 else r2

/-- `ClientFileScanner.isZipFile`: `PK` local-file-header prefix. -/
def isZipFile (bytes : List Nat) : Bool :=
  decide (4 ≤ bytes.length) && (bytes.get? 0 == some 0x50) && (bytes.get? 1 == some 0x4B)

/-- The `:$DATA` NTFS alternate-data-stream marker bytes. -/
def adsPattern : List Nat := [0x3A, 0x24, 0x44, 0x41, 0x54, 0x41]

/-- `ClientFileScanner.hasHiddenStreams`, with the source's loop bound
`i < bytes.length - adsPattern.length` (the last start offset, a match ending
at the final byte, is not visited). -/
def hasHiddenStreams (bytes : List Nat) : Bool :=
  (List.range (bytes.length - adsPattern.length)).any fun i => seqMatchAt bytes i adsPattern

/-- `ClientFileScanner.scanFileStructure` over the first
`min(size, 512)` bytes: archive signature and hidden-stream marker are
warnings. -/
def scanFileStructure (header : List Nat) (r : ScanResult) : ScanResult :=
  let r1 := if isZipFile header then
              recordWarning "アーカイブファイルが検出されました" r else r
  if hasHiddenStreams header then
    recordWarning "隠しデータストリームの可能性があります" r1 else r1

/-- `ClientFileScanner.scanFile`: name scan, content scan over the first
`min(size, 1 MiB)` bytes, structure scan over the first `min(size, 512)`
bytes, threading one result record initialised to
`{safe: true, threats: [], warnings: []}`. -/
def scanFile (cf : ContentOracle) (f : MFile) : ScanResult :=
  let r0 : ScanResult := ⟨true, [], []⟩
  let r1 := scanFileName f.name r0
  let r2 := scanFileContent (cf (f.bytes.take (min f.size (1024 * 1024)))) r1
  scanFileStructure (f.bytes.take (min f.size 512)) r2

/-! ### `ImageOptimizer` (src/components/image-optimizer.tsx) -/

/-- JavaScript `Math.round` on the non-negative numbers arising here:
round half up, i.e. the floor of `q + 1/2`. -/
def jsRound (q : ℚ) : Nat := (Int.floor (q + 1 / 2)).toNat

/-- `calculateDimensions`: the asymmetric two-step clamp — width is clamped
to `maxWidth` first with height scaled proportionally, then the (possibly
already rescaled) height is clamped to `maxHeight` with width rescaled, and
both final values are rounded to the nearest integer. -/
def calculateDimensions (originalWidth originalHeight maxWidth maxHeight : ℚ) : Nat × Nat :=
  let width1 := if maxWidth < originalWidth then maxWidth else originalWidth
  let height1 := if maxWidth < originalWidth then originalHeight * maxWidth / originalWidth
                 else originalHeight
  let width2 := if maxHeight < height1 then width1 * maxHeight / height1 else width1
  let height2 := if maxHeight < height1 then maxHeight else height1
  (jsRound width2, jsRound height2)

/-- The target-dimension selection of `compressImage`: keep the native size
unless the source exceeds 1920 wide or 1080 tall, in which case apply
`calculateDimensions` with the 1920×1080 bounding box. -/
def targetDims (w h : Nat) : Nat × Nat :=
  if 1920 < w ∨ 1080 < h then calculateDimensions w h 1920 1080 else (w, h)

/-- `compressImage`'s output format selection: the original format only when
the file's type is `image/png`, otherwise `image/jpeg`. -/
def outputFormat (fileType : String) : String :=
  if fileType = "image/png" then "image/png" else "image/jpeg"

/-- `compressImage`'s encoder quality: `1` for PNG regardless of the slider,
`quality/100` otherwise. -/
def outputQuality (fileType : String) (quality : Nat) : ℚ :=
  if fileType = "image/png" then 1 else (quality : ℚ) / 100

/-- A canvas encoder is lossless on the PNG codec: decoding what it encoded
as `image/png` at any quality yields the original pixel surface.  This is the
documented behaviour of `canvas.toBlob` with the PNG codec (the quality
argument has no lossy effect there); it is a property of the browser, not of
this repository, so it enters the round-trip theorem as a hypothesis. -/
def pngLossless {Pixels : Type} (encode : String → ℚ → Pixels → List Nat)
    (decodeImg : List Nat → Option Pixels) : Prop :=
  ∀ (q : ℚ) (px : Pixels), decodeImg (encode "image/png" q px) = some px

/-! #### `compressPDF` -/

/-- One source page after rendering at scale 1.0 and JPEG re-encoding: the
pixel dimensions of the rendered canvas (which are also the dimensions
`embedJpg` recovers from the encoded image). -/
structure RenderedPage where
  width : Nat
  height : Nat
deriving DecidableEq

/-- A page of the reassembled output document, created by
`pdfDoc.addPage([image.width, image.height])`. -/
structure OutPage where
  pageWidth : Nat
  pageHeight : Nat
deriving DecidableEq

/-- The output page built from a rendered page: sized exactly to the rendered
raster's pixel dimensions. -/
def pageOf (p : RenderedPage) : OutPage := ⟨p.width, p.height⟩

/-- Result of `compressPDF`: the reassembled per-page-recompressed document,
or the catch-block fallback that reloads the original bytes and re-serialises
them (`useObjectStreams: false`) without recompression. -/
inductive PDFOutput where
  | optimized (pages : List OutPage)
  | fallbackResave
deriving DecidableEq

/-- The page loop of `compressPDF`: pages are processed in order 1..N and
appended to the output document; a page whose render/encode/embed throws
(modelled as `none`) aborts the loop with an exception. -/
def processPages : List (Option RenderedPage) → List OutPage → Option (List OutPage)
  | [], acc => some acc
  | none :: _, _ => none
  | some p :: rest, acc => processPages rest (acc ++ [pageOf p])

/-- `compressPDF` over the per-page render outcomes: the reassembled document
on the success path, the fallback re-serialisation when any page throws. -/
def compressPDF (doc : List (Option RenderedPage)) : PDFOutput :=
  match processPages doc [] with
  | some pages => PDFOutput.optimized pages
  | none => PDFOutput.fallbackResave

/-! #### `handleFileSelect`: the admission pipeline -/

/-- The externally observable component invocations of `handleFileSelect`, in
order: the structural validation, the threat scan, and the start of one of
the two transcoders. -/
inductive Ev where
  | validate
  | scan
  | transcodeImage
  | transcodePDF
deriving DecidableEq

/-- The sequence of component invocations `handleFileSelect` performs:
validation always runs; the scan runs only if validation accepted; the
pipeline aborts if the scan is unsafe, or if there are warnings and the user
declines the confirm dialog; otherwise the transcoder selected by the
resolved file type starts. -/
def pipelineEvents (d : DecodeOracle) (cf : ContentOracle) (userProceeds : Bool)
    (f : MFile) : List Ev :=
  if (validateFile d f).valid = false then [Ev.validate]
  else if (scanFile cf f).safe = false then [Ev.validate, Ev.scan]
  else if (scanFile cf f).warnings ≠ [] ∧ userProceeds = false then [Ev.validate, Ev.scan]
  else
    [Ev.validate, Ev.scan,
     if (match (validateFile d f).fileType with
         | some t => strStartsWith t "image/"
         | none => false) = true
     then Ev.transcodeImage else Ev.transcodePDF]

/-- The completion state the component stores after a transcode: the
compressed blob size and, for raster output only, its dimensions. -/
structure CompletedState where
  size : Option Nat
  dims : Option (Nat × Nat)
deriving DecidableEq

/-- The PDF completion branch of `handleFileSelect`:
`setCompressedBlob(pdf); setCompressedDimensions(null)`. -/
def completePDFBranch (pdfSize : Nat) : CompletedState := ⟨some pdfSize, none⟩

/-! #### `getSuitableServices` -/

/-- One entry of the static target-service catalogue. -/
structure ServiceCfg where
  name : String
  maxWidth : Nat
  maxHeight : Nat
  maxSize : Nat
deriving DecidableEq

/-- The `services` table, in source (insertion) order. -/
def services : List ServiceCfg :=
  [⟨"Instagram", 1080, 1080, 8 * 1024 * 1024⟩,
   ⟨"LINE", 1024, 1024, 10 * 1024 * 1024⟩,
   ⟨"ウェブ", 1200, 800, 15 * 1024 * 1024⟩,
   ⟨"モバイル", 750, 1334, 5 * 1024 * 1024⟩,
   ⟨"メール", 800, 600, 5 * 1024 * 1024⟩,
   ⟨"YouTube", 1280, 720, 20 * 1024 * 1024⟩,
   ⟨"Facebook", 1200, 630, 8 * 1024 * 1024⟩,
   ⟨"印刷用", 1920, 1080, 10 * 1024 * 1024⟩]

/-- `getSuitableServices`: empty when there is no compressed blob or no
stored dimensions; otherwise the catalogue entries whose three bounds all
hold. -/
def getSuitableServices (compressedSize : Option Nat)
    (compressedDimensions : Option (Nat × Nat)) : List ServiceCfg :=
  match compressedSize, compressedDimensions with
  | some sz, some (w, h) =>
      services.filter fun s =>
        decide (sz ≤ s.maxSize) && decide (w ≤ s.maxWidth) && decide (h ≤ s.maxHeight)
  | _, _ => []

/-! ### Concrete fixtures used by counterexamples and witnesses -/

/-- A decode oracle that decodes every byte content as an 800×600 image. -/
def decodeOk : DecodeOracle := fun _ => DecodeOutcome.ok 800 600

/-- A content oracle reporting no text-level findings. -/
def noFindings : ContentOracle := fun _ => ⟨false, 0, false⟩

/-- 100 bytes beginning with the JPEG magic number `FF D8 FF`. -/
def jpegSampleBytes : List Nat := [0xFF, 0xD8, 0xFF] ++ List.replicate 97 0

/-- JPEG-magic bytes declared as `application/pdf`. -/
def c1PdfDeclared : MFile := ⟨"photo.jpg", "application/pdf", jpegSampleBytes⟩

/-- JPEG-magic bytes with a declared type selecting no content probe. -/
def c1NeutralDeclared : MFile := ⟨"photo.jpg", "text/plain", jpegSampleBytes⟩

/-- A 100-byte file whose final six bytes are the `:$DATA` marker, so the
marker ends exactly at the last byte of the scanned window. -/
def c2File : MFile := ⟨"a.pdf", "application/pdf", List.replicate 94 0 ++ adsPattern⟩

/-- The `%PDF` signature bytes. -/
def pdfSigBytes : List Nat := [0x25, 0x50, 0x44, 0x46]

/-- A 10-byte file named `invoice.pdf.exe` whose bytes match the PDF
signature: below the 100-byte minimum size. -/
def c6SmallFile : MFile := ⟨"invoice.pdf.exe", "application/pdf", pdfSigBytes ++ List.replicate 6 0⟩

/-- A 100-byte file named `invoice.pdf.exe` whose bytes match the PDF
signature and whose size is within bounds. -/
def c6OkFile : MFile := ⟨"invoice.pdf.exe", "application/pdf", pdfSigBytes ++ List.replicate 96 0⟩

/-- JPEG-magic bytes under an innocuous name. -/
def c9FileA : MFile := ⟨"a.jpg", "x", jpegSampleBytes⟩

/-- The same bytes as `c9FileA` under an executable name. -/
def c9FileB : MFile := ⟨"a.exe", "x", jpegSampleBytes⟩

/-- A file rejected by the validator (executable name) whose scan is also
unsafe. -/
def c5RejFile : MFile := ⟨"x.exe", "application/octet-stream", List.replicate 100 0⟩

/-- A page rendered at 612×792 (US-letter at 72 dpi). -/
def pageLetter : RenderedPage := ⟨612, 792⟩

/-- The trivial pixel encoder over a one-point pixel type, used to witness
the round-trip statement. -/
def trivEncode : String → ℚ → Unit → List Nat := fun _ _ _ => []

/-- The matching trivial decoder. -/
def trivDecode : List Nat → Option Unit := fun _ => some ()

/-! ### Helper lemmas -/

theorem jsRound_le {q : ℚ} {n : ℕ} (h : q ≤ n) : jsRound q ≤ n := by
  unfold jsRound
  rw [Int.toNat_le]
  exact Int.lt_add_one_iff.mp (Int.floor_lt.mpr (by push_cast; linarith))

theorem calcDims_width_le (w h : ℕ) : (calculateDimensions w h 1920 1080).1 ≤ 1920 := by
  unfold calculateDimensions
  dsimp only
  split_ifs with hw hh hh2 <;> apply jsRound_le <;> push_cast
  · rw [div_le_iff₀ (by linarith)]
    linarith
  · norm_num
  · rw [div_le_iff₀ (by linarith)]
    have h1 : (w : ℚ) ≤ 1920 := by linarith
    nlinarith
  · linarith

theorem calcDims_height_le (w h : ℕ) : (calculateDimensions w h 1920 1080).2 ≤ 1080 := by
  unfold calculateDimensions
  dsimp only
  split_ifs with hw hh hh2 <;> apply jsRound_le <;> push_cast
  · norm_num
  · linarith
  · norm_num
  · linarith

theorem take3_shape {l : List Nat} {a b c : Nat} (h : l.take 3 = [a, b, c]) :
    ∃ t, l = a :: b :: c :: t := by
  rcases l with _ | ⟨x, _ | ⟨y, _ | ⟨z, t⟩⟩⟩ <;> simp_all [List.take]

theorem validateFileName_valid_shape {n : String} (h : (validateFileName n).valid = true) :
    validateFileName n = ⟨true, none, none⟩ := by
  unfold validateFileName at *
  split_ifs at h ⊢ <;> simp_all

theorem validateFileSize_ok {f : MFile} (h1 : MIN_FILE_SIZE ≤ f.size)
    (h2 : f.size ≤ MAX_FILE_SIZE) : validateFileSize f = ⟨true, none, none⟩ := by
  unfold validateFileSize
  rw [if_neg (by omega), if_neg (by omega)]

theorem jpeg_signature_of_take3 {f : MFile} (h4 : f.bytes.take 3 = [0xFF, 0xD8, 0xFF]) :
    validateFileSignature f = ⟨true, none, some "image/jpeg"⟩ := by
  obtain ⟨t, ht⟩ := take3_shape h4
  unfold validateFileSignature firstSignatureMatch ALLOWED_FILE_SIGNATURES
  rw [ht]
  simp [matchesSignature, sigMatchAux, List.take]

/-- The aggregation invariant of a `ScanResult`. -/
def scanInv (r : ScanResult) : Prop := r.safe = true ↔ r.threats = []

theorem recordThreat_inv (m : String) (r : ScanResult) : scanInv (recordThreat m r) := by
  simp [scanInv, recordThreat]

theorem recordWarning_inv (m : String) (r : ScanResult) (h : scanInv r) :
    scanInv (recordWarning m r) := by
  simpa [scanInv, recordWarning] using h

theorem scanFileName_inv (n : String) (r : ScanResult) (h : scanInv r) :
    scanInv (scanFileName n r) := by
  unfold scanFileName
  split_ifs <;> simp_all [scanInv, recordThreat, recordWarning]

theorem scanFileContent_inv (cf : ContentFindings) (r : ScanResult) (h : scanInv r) :
    scanInv (scanFileContent cf r) := by
  unfold scanFileContent
  split_ifs <;> simp_all [scanInv, recordThreat, recordWarning]

theorem scanFileStructure_inv (header : List Nat) (r : ScanResult) (h : scanInv r) :
    scanInv (scanFileStructure header r) := by
  unfold scanFileStructure
  split_ifs <;> simp_all [scanInv, recordThreat, recordWarning]

theorem processPages_map_some (l : List RenderedPage) (acc : List OutPage) :
    processPages (l.map some) acc = some (acc ++ l.map pageOf) := by
  induction l generalizing acc with
  | nil => simp [processPages]
  | cons p rest ih => simp [processPages, ih]

theorem processPages_has_none (doc : List (Option RenderedPage)) (acc : List OutPage)
    (h : none ∈ doc) : processPages doc acc = none := by
  induction doc generalizing acc with
  | nil => simp at h
  | cons x rest ih =>
      cases x with
      | none => rfl
      | some p =>
          have hr : none ∈ rest := by simpa using h
          simpa [processPages] using ih _ hr

/-! ### Claim theorems -/

/-- C1 counterexample: a file whose first three bytes are `FF D8 FF`, within
the size bounds and with a clean name, is nevertheless rejected by
`validateFile` when its declared media type is `application/pdf` (the
declared type selects the PDF content probe, which fails on the missing
`%%EOF` trailer).  So the declared media type does gate accept/reject, and
not every `FF D8 FF` file is accepted. -/
theorem jpeg_bytes_declared_pdf_rejected :
    c1PdfDeclared.bytes.take 3 = [0xFF, 0xD8, 0xFF] ∧
    (validateFileSize c1PdfDeclared).valid = true ∧
    (validateFileName c1PdfDeclared.name).valid = true ∧
    validateFile decodeOk c1PdfDeclared = ⟨false, some "不正なPDFファイルです", none⟩ := by
  refine ⟨by decide, by decide, by decide, by decide⟩

/-- C1 (amended): the signature gate never consults the declared media type,
and the resolved media type is fixed by the first matching signature (`FF D8
FF` resolves to `image/jpeg`); a file passing the size and name gates whose
first three bytes are `FF D8 FF` is accepted as `image/jpeg` regardless of
declared type or extension **provided** the declared type selects no content
probe (it neither starts with `image/` nor equals `application/pdf`). -/
theorem signature_resolution_amended (d : DecodeOracle) (f : MFile)
    (h1 : MIN_FILE_SIZE ≤ f.size) (h2 : f.size ≤ MAX_FILE_SIZE)
    (h3 : (validateFileName f.name).valid = true)
    (h4 : f.bytes.take 3 = [0xFF, 0xD8, 0xFF])
    (h5 : strStartsWith f.declaredType "image/" = false)
    (h6 : f.declaredType ≠ "application/pdf") :
    (∀ t : String, validateFileSignature { f with declaredType := t } = validateFileSignature f) ∧
    validateFileSignature f = ⟨true, none, some "image/jpeg"⟩ ∧
    validateFile d f = ⟨true, none, some "image/jpeg"⟩ := by
  refine ⟨fun t => rfl, jpeg_signature_of_take3 h4, ?_⟩
  unfold validateFile
  rw [validateFileSize_ok h1 h2, validateFileName_valid_shape h3, jpeg_signature_of_take3 h4]
  have hc : validateFileContent d f = ⟨true, none, none⟩ := by
    unfold validateFileContent
    rw [if_neg (by simp [h5]), if_neg h6]
  rw [hc]
  rfl

/-- C1 witness: the amended theorem applied to a concrete 100-byte `FF D8
FF` file declared `text/plain`. -/
theorem signature_resolution_amended_witness :
    validateFile decodeOk c1NeutralDeclared = ⟨true, none, some "image/jpeg"⟩ :=
  (signature_resolution_amended decodeOk c1NeutralDeclared (by decide) (by decide)
    (by decide) (by decide) (by decide) (by decide)).2.2

/-- C2: the `:$DATA` marker occurs in the scanned window of `c2File` (ending
at the window's last byte), yet `scanFile` records no warning at all: the
loop bound `i < bytes.length - adsPattern.length` of `hasHiddenStreams`
never visits the final start offset. -/
theorem hidden_stream_marker_missed_at_window_end :
    containsSeq (c2File.bytes.take (min c2File.size 512)) adsPattern = true ∧
    hasHiddenStreams (c2File.bytes.take (min c2File.size 512)) = false ∧
    scanFile noFindings c2File = ⟨true, [], []⟩ := by
  refine ⟨by decide, by decide, by decide⟩

/-- C3: the transcoder keeps the source dimensions exactly when they fit in
1920×1080; when either bound is exceeded it applies the asymmetric two-step
clamp `calculateDimensions` (width clamped to 1920 first with height scaled,
then height reclamped to 1080 with width rescaled, rounding to nearest), and
the resulting dimensions satisfy `width ≤ 1920 ∧ height ≤ 1080`. -/
theorem raster_output_dimensions (w h : ℕ) :
    (1920 < w ∨ 1080 < h →
       targetDims w h = calculateDimensions w h 1920 1080 ∧
       (targetDims w h).1 ≤ 1920 ∧ (targetDims w h).2 ≤ 1080) ∧
    (w ≤ 1920 → h ≤ 1080 → targetDims w h = (w, h)) := by
  constructor
  · intro hex
    have heq : targetDims w h = calculateDimensions w h 1920 1080 := by
      unfold targetDims
      rw [if_pos hex]
    exact ⟨heq, heq ▸ calcDims_width_le w h, heq ▸ calcDims_height_le w h⟩
  · intro hw hh
    unfold targetDims
    rw [if_neg (by omega)]

/-- C3 witness: a 3840×2160 source is resized through the clamp within
bounds; an 800×600 source is kept exactly. -/
theorem raster_output_dimensions_witness :
    (targetDims 3840 2160 = calculateDimensions 3840 2160 1920 1080 ∧
     (targetDims 3840 2160).1 ≤ 1920 ∧ (targetDims 3840 2160).2 ≤ 1080) ∧
    targetDims 800 600 = (800, 600) :=
  ⟨(raster_output_dimensions 3840 2160).1 (Or.inl (by norm_num)),
   (raster_output_dimensions 800 600).2 (by norm_num) (by norm_num)⟩

/-- C4: for every content-finding oracle and file, the scan result satisfies
`safe = (threats is empty)`: `safe` is `false` iff a threat was recorded, and
warnings never flip `safe`. -/
theorem scan_safe_iff_no_threats (cf : ContentOracle) (f : MFile) :
    ((scanFile cf f).safe = true ↔ (scanFile cf f).threats = []) := by
  have h0 : scanInv ⟨true, [], []⟩ := by simp [scanInv]
  exact scanFileStructure_inv _ _ (scanFileContent_inv _ _ (scanFileName_inv _ _ h0))

/-- C5: if the validator rejects, the pipeline performs only the validation
step — the scanner is never invoked and no transcoder starts; and if the
scan reports unsafe, no transcoder starts. -/
theorem pipeline_fail_closed (d : DecodeOracle) (cf : ContentOracle) (up : Bool) (f : MFile) :
    ((validateFile d f).valid = false →
       pipelineEvents d cf up f = [Ev.validate] ∧
       Ev.scan ∉ pipelineEvents d cf up f ∧
       Ev.transcodeImage ∉ pipelineEvents d cf up f ∧
       Ev.transcodePDF ∉ pipelineEvents d cf up f) ∧
    ((scanFile cf f).safe = false →
       Ev.transcodeImage ∉ pipelineEvents d cf up f ∧
       Ev.transcodePDF ∉ pipelineEvents d cf up f) := by
  constructor
  · intro hv
    simp [pipelineEvents, hv]
  · intro hs
    by_cases hv : (validateFile d f).valid = false
    · simp [pipelineEvents, hv]
    · simp [pipelineEvents, hv, hs]

/-- C5 witness: a concrete file rejected by the validator (executable name)
whose scan is also unsafe. -/
theorem pipeline_fail_closed_witness :
    (pipelineEvents decodeOk noFindings true c5RejFile = [Ev.validate] ∧
     Ev.scan ∉ pipelineEvents decodeOk noFindings true c5RejFile ∧
     Ev.transcodeImage ∉ pipelineEvents decodeOk noFindings true c5RejFile ∧
     Ev.transcodePDF ∉ pipelineEvents decodeOk noFindings true c5RejFile) ∧
    (Ev.transcodeImage ∉ pipelineEvents decodeOk noFindings true c5RejFile ∧
     Ev.transcodePDF ∉ pipelineEvents decodeOk noFindings true c5RejFile) :=
  ⟨(pipeline_fail_closed decodeOk noFindings true c5RejFile).1 (by decide),
   (pipeline_fail_closed decodeOk noFindings true c5RejFile).2 (by decide)⟩

/-- C6 counterexample: a 10-byte `invoice.pdf.exe` whose bytes match the PDF
signature is rejected with the *size* reason, not the executable-extension
reason — the size gate runs before the name gate, so the claim's "regardless
of the file's bytes" fails for under-sized contents. -/
theorem exe_extension_size_gate_first :
    matchesExecExt validatorExecutableExts c6SmallFile.name = true ∧
    c6SmallFile.bytes.take 4 = pdfSigBytes ∧
    validateFile decodeOk c6SmallFile = ⟨false, some "ファイルサイズが小さすぎます", none⟩ := by
  refine ⟨by decide, by decide, by decide⟩

/-- C6 (amended): for every file within the size bounds whose name passes
the dangerous-character check, an executable-denylist extension — as in
`invoice.pdf.exe` — is rejected with the executable-extension reason
regardless of the file's bytes and of the decode oracle, because the name
gate runs before the signature gate. -/
theorem exe_extension_rejected_amended (d : DecodeOracle) (f : MFile)
    (h1 : MIN_FILE_SIZE ≤ f.size) (h2 : f.size ≤ MAX_FILE_SIZE)
    (h3 : hasDangerousChar f.name = false)
    (h4 : matchesExecExt validatorExecutableExts f.name = true) :
    validateFile d f = ⟨false, some "実行可能ファイルはアップロードできません", none⟩ := by
  unfold validateFile
  rw [validateFileSize_ok h1 h2]
  have hn : validateFileName f.name =
      ⟨false, some "実行可能ファイルはアップロードできません", none⟩ := by
    unfold validateFileName
    rw [if_neg (by simp [h3]), if_pos (by simp [h4])]
  rw [hn]
  rfl

/-- C6 witness: the amended theorem applied to a concrete in-bounds
`invoice.pdf.exe` whose bytes match the PDF signature. -/
theorem exe_extension_rejected_amended_witness :
    validateFile decodeOk c6OkFile =
      ⟨false, some "実行可能ファイルはアップロードできません", none⟩ :=
  exe_extension_rejected_amended decodeOk c6OkFile (by decide) (by decide)
    (by decide) (by decide)

/-- C7: the transcoder keeps the original format with encoder quality `1`
exactly for PNG input (as seen by the transcoder through the file's type),
every other input is encoded as `image/jpeg` at `quality/100`; and under the
losslessness of the browser's PNG codec, a PNG source round-trips to its
original pixel surface at every quality value. -/
theorem png_lossless_format_selection (t : String) (q : Nat) :
    ((outputFormat t = "image/png" ∧ outputQuality t q = 1) ↔ t = "image/png") ∧
    (t ≠ "image/png" → outputFormat t = "image/jpeg" ∧ outputQuality t q = (q : ℚ) / 100) ∧
    (∀ (Pixels : Type) (encode : String → ℚ → Pixels → List Nat)
       (decodeImg : List Nat → Option Pixels),
       pngLossless encode decodeImg →
       ∀ px : Pixels,
         decodeImg (encode (outputFormat "image/png") (outputQuality "image/png" q) px) = some px) := by
  refine ⟨⟨?_, ?_⟩, ?_, ?_⟩
  · rintro ⟨hf, _⟩
    by_contra hne
    rw [outputFormat, if_neg hne] at hf
    exact absurd hf (by decide)
  · intro ht
    subst ht
    exact ⟨by rw [outputFormat, if_pos rfl], by rw [outputQuality, if_pos rfl]⟩
  · intro hne
    rw [outputFormat, if_neg hne, outputQuality, if_neg hne]
    exact ⟨rfl, rfl⟩
  · intro Pixels encode decodeImg hl px
    rw [outputFormat, if_pos rfl, outputQuality, if_pos rfl]
    exact hl 1 px

/-- C7 witness: the non-PNG selection at `image/gif`, quality 50, and the
round-trip through a trivial lossless codec. -/
theorem png_lossless_format_selection_witness :
    (outputFormat "image/gif" = "image/jpeg" ∧
     outputQuality "image/gif" 50 = (50 : ℚ) / 100) ∧
    trivDecode (trivEncode (outputFormat "image/png") (outputQuality "image/png" 50) ()) =
      some () :=
  ⟨(png_lossless_format_selection "image/gif" 50).2.1 (by decide),
   (png_lossless_format_selection "image/png" 50).2.2 Unit trivEncode trivDecode
     (fun _ _ => rfl) ()⟩

/-- C8: when every page of an N-page document renders, `compressPDF` yields
a single reassembled document of exactly N pages in source order, each page
sized exactly to that page's rendered raster dimensions; when any page
fails, it yields the fallback re-serialisation of the original document
instead of failing. -/
theorem pdf_page_reassembly (l : List RenderedPage) (doc : List (Option RenderedPage)) :
    compressPDF (l.map some) = PDFOutput.optimized (l.map pageOf) ∧
    (l.map pageOf).length = l.length ∧
    (∀ i : Nat, (l.map pageOf).get? i = (l.get? i).map pageOf) ∧
    (none ∈ doc → compressPDF doc = PDFOutput.fallbackResave) := by
  refine ⟨?_, by simp, fun i => by simp, fun hnone => ?_⟩
  · unfold compressPDF
    rw [processPages_map_some]
    simp
  · unfold compressPDF
    rw [processPages_has_none doc [] hnone]

/-- C8 witness: a concrete one-page render succeeds and is reassembled; a
document whose second page fails falls back. -/
theorem pdf_page_reassembly_witness :
    compressPDF ([pageLetter].map some) = PDFOutput.optimized ([pageLetter].map pageOf) ∧
    compressPDF [some pageLetter, none] = PDFOutput.fallbackResave :=
  ⟨(pdf_page_reassembly [pageLetter] []).1,
   (pdf_page_reassembly [pageLetter] [some pageLetter, none]).2.2.2 (by decide)⟩

/-- C9 counterexample: two files with identical bytes but different names
receive different verdicts — the verdict is not a function of the bytes
alone. -/
theorem same_bytes_different_verdicts :
    c9FileA.bytes = c9FileB.bytes ∧
    validateFile decodeOk c9FileA ≠ validateFile decodeOk c9FileB := by
  refine ⟨rfl, by decide⟩

/-- C9 (amended): the validator is deterministic over its full input: two
runs presented with the same name, declared media type, bytes — and thus the
same decode-probe behaviour — return the same verdict and reason. -/
theorem validator_deterministic (d : DecodeOracle) (f₁ f₂ : MFile)
    (hn : f₁.name = f₂.name) (ht : f₁.declaredType = f₂.declaredType)
    (hb : f₁.bytes = f₂.bytes) :
    validateFile d f₁ = validateFile d f₂ := by
  obtain ⟨n₁, t₁, b₁⟩ := f₁
  obtain ⟨n₂, t₂, b₂⟩ := f₂
  simp only [MFile.mk.injEq] at *
  subst hn
  subst ht
  subst hb
  rfl

/-- C9 witness: the amended determinism applied to two structurally equal
concrete files. -/
theorem validator_deterministic_witness :
    validateFile decodeOk c9FileA = validateFile decodeOk ⟨"a.jpg", "x", jpegSampleBytes⟩ :=
  validator_deterministic decodeOk c9FileA ⟨"a.jpg", "x", jpegSampleBytes⟩ rfl rfl rfl

/-- C10: the PDF completion branch stores no output dimensions, the
suitable-services computation on that state is empty regardless of the
output byte size, and a non-empty services result is only possible when
dimensions are present. -/
theorem pdf_output_no_dimensions (sz : Nat) :
    (completePDFBranch sz).dims = none ∧
    getSuitableServices (completePDFBranch sz).size (completePDFBranch sz).dims = [] ∧
    (∀ (b : Option Nat) (dm : Option (Nat × Nat)),
       getSuitableServices b dm ≠ [] → dm ≠ none) := by
  refine ⟨rfl, rfl, ?_⟩
  intro b dm hne hdm
  subst hdm
  apply hne
  cases b <;> rfl

/-- C10 witness: applied at size 0 and at a raster state matching all
services. -/
theorem pdf_output_no_dimensions_witness :
    (completePDFBranch 0).dims = none ∧
    getSuitableServices (completePDFBranch 0).size (completePDFBranch 0).dims = [] ∧
    (some (100, 100) : Option (Nat × Nat)) ≠ none :=
  ⟨(pdf_output_no_dimensions 0).1, (pdf_output_no_dimensions 0).2.1,
   (pdf_output_no_dimensions 0).2.2 (some 1000) (some (100, 100)) (by decide)⟩
